import Mathlib

/-!
Verification of the yelp-bot repository's challenge-aware authenticated
session core against its specification.

The development shallowly embeds the TypeScript source:

* `src/lib/serialQueue.ts` (`SerialQueue`) — a FIFO single-flight promise
  chain, embedded as a list of state-transforming tasks drained in order.
* `src/yelp/biz/yelpBizClient.ts` (`YelpBizClient`) — the challenge
  detector/resolver, login orchestrator and `ensureAuthenticated`, embedded
  as total functions over an oracle environment.  Every fallible Playwright
  page query is modelled as an `Except Unit` value; a `.catch(() => d)` in
  the source is the collapse `catchD q d`.  Side effects (snapshot capture,
  waiting, form fills, clicks, navigations) are recorded in a trace.
* `src/index.ts` — the `/yelp/biz/status` and `/yelp/biz/navigate` HTTP
  handlers.
* `src/env.ts` (`resolveBizCredentials`) — credential-pair resolution.
-/

/-- `.catch(() => d)` on a fallible page query: collapse a failure to the
default `d`. -/
def catchD {β : Type} (q : Except Unit β) (d : β) : β :=
  match q with
  | .ok b => b
  | .error _ => d

theorem catchD_ok_catchD {β : Type} (q : Except Unit β) (d : β) :
    catchD (Except.ok (catchD q d)) d = catchD q d := rfl

/-- Models JS `l.startsWith(p)` on the underlying character list
(second argument is the pattern). -/
def listStartsWith : List Char → List Char → Bool
  | _, [] => true
  | [], _ :: _ => false
  | c :: cs, p :: ps => (c == p) && listStartsWith cs ps

theorem listStartsWith_iff (p : List Char) :
    ∀ l : List Char, listStartsWith l p = true ↔ ∃ t, l = p ++ t := by
  induction p with
  | nil =>
    intro l
    simp [listStartsWith]
  | cons a as ih =>
    intro l
    cases l with
    | nil =>
      simp [listStartsWith]
    | cons c cs =>
      simp [listStartsWith, ih cs]

/-- Occurrence of `pat` as a contiguous substring of the character list. -/
def listHasSub (pat : List Char) : List Char → Bool
  | [] => listStartsWith [] pat
  | c :: rest => listStartsWith (c :: rest) pat || listHasSub pat rest

/-- JS `String.prototype.startsWith`. -/
def strStartsWith (s p : String) : Bool := listStartsWith s.toList p.toList

/-- ASCII lowercasing on the underlying character list (JS
`toLowerCase()` on the ASCII range). -/
def lowerChars (l : List Char) : List Char := l.map Char.toLower

/-- Case-insensitive substring test: models a `/pat/i.test(s)` regex whose
pattern is a literal word. -/
def containsCI (s pat : String) : Bool :=
  listHasSub (lowerChars pat.toList) (lowerChars s.toList)

/-- JS `trim()` whitespace, restricted to the common ASCII whitespace. -/
def isWhitespaceChar (c : Char) : Bool :=
  c == ' ' || c == '\t' || c == '\n' || c == '\r'

/-- JS `trim()` on the underlying character list. -/
def trimChars (l : List Char) : List Char :=
  ((l.dropWhile isWhitespaceChar).reverse.dropWhile isWhitespaceChar).reverse

/-- A character that ends the host portion of an http(s) URL. -/
def hostEndChar (c : Char) : Bool := c == '/' || c == '?' || c == '#'

/-- Models the check that `new URL(u)` (and hence zod's `z.string().url()`)
succeeds, restricted to http(s) URLs: an `http://` or `https://` scheme
followed by a nonempty host. -/
def urlParsesL (l : List Char) : Bool :=
  (listStartsWith l "https://".toList
      && !((l.drop 8).takeWhile (fun c => !hostEndChar c)).isEmpty)
    || (listStartsWith l "http://".toList
      && !((l.drop 7).takeWhile (fun c => !hostEndChar c)).isEmpty)

def urlParses (u : String) : Bool := urlParsesL u.toList

/-- Models `new URL(u).host` for http(s) URLs: the characters after the
scheme up to the first `/`, `?` or `#`; `none` when the URL does not parse
(in the source, `new URL` throws there). -/
def parseHost (u : String) : Option String :=
  if listStartsWith u.toList "https://".toList then
    some (String.mk ((u.toList.drop 8).takeWhile (fun c => !hostEndChar c)))
  else if listStartsWith u.toList "http://".toList then
    some (String.mk ((u.toList.drop 7).takeWhile (fun c => !hostEndChar c)))
  else none

/-- A Playwright bounding box (`locator.boundingBox()` result).  JS numbers
are embedded as rationals. -/
structure BoundingBox where
  x : ℚ
  y : ℚ
  width : ℚ
  height : ℚ
deriving DecidableEq

/-- The two page queries behind the CAPTCHA-iframe scan: the iframe count
(`captchaIframes.count().catch(() => 0)`) and each iframe's bounding box
(`captchaIframes.nth(idx).boundingBox().catch(() => null)`). -/
structure CaptchaQueryEnv where
  iframeCount : Except Unit Nat
  boundingBox : Nat → Except Unit (Option BoundingBox)

/-- The `captchaChallengeVisible` loop of `#maybeHandleCaptcha` (also
inlined in the `/yelp/biz/status` handler and the smoke script): an active
challenge is an iframe whose rendered bounding box is at least 100×100. -/
def captchaChallengeVisible (q : CaptchaQueryEnv) : Bool :=
  (List.range (catchD q.iframeCount 0)).any fun idx =>
    match catchD (q.boundingBox idx) none with
    | none => false
    | some box => decide ((100 : ℚ) ≤ box.width) && decide ((100 : ℚ) ≤ box.height)

/-- The error taxonomy of the client and its callers.  `queryError` stands
for an uncaught page-query exception escaping a handler: the detection code
never produces it (every query is individually caught), which is exactly
what the safety claims assert. -/
inductive BizError
  | queryError
  | navFailed
  | urlParseFailed
  | captchaTimeout (dir : String)
  | twoFactorTimeout (dir : String)
  | blocked (dir : String)
  | missingCredentials (dir : String)
  | loginFieldsMissing (dir : String)
  | loginSubmitFailed (dir : String)
  | loginDidNotSucceed (dir : String)
  | unexpectedRedirect (dir : String)
deriving DecidableEq

/-- Observable side effects of a run: debug-snapshot captures, challenge
waits, form fills, clicks, navigations, session start, post-submit URL
wait. -/
inductive Eff
  | start
  | goto (url : String)
  | snapshot (label : String)
  | wait (kind : String)
  | fill (field : String)
  | click (target : String)
  | waitUrl
deriving DecidableEq

/-- Oracle environment of one challenge-detection pass: the outcome of each
individual page query made by `#maybeHandleCaptcha`, `#maybeHandleTwoFactor`
and `#maybeThrowIfBlocked`, plus whether each `waitForFunction` resolved
within `challengeTimeoutMs` and where snapshots land. -/
structure ChallengeEnv where
  captcha : CaptchaQueryEnv
  captchaResolved : Bool
  otpInputVisible : Except Unit Bool
  twoFactorTextVisible : Except Unit Bool
  twoFactorResolved : Bool
  pageUrl : String
  pageTitle : Except Unit String
  cloudfrontTextVisible : Except Unit Bool
  snapshotDir : String → String

/-- `#maybeHandleCaptcha`: if no large CAPTCHA iframe is visible, return
immediately; otherwise snapshot, wait for resolution, and on timeout fail
with a snapshotted error. -/
def maybeHandleCaptcha (env : ChallengeEnv) (label : String) :
    Except BizError Unit × List Eff :=
  if !captchaChallengeVisible env.captcha then (.ok (), [])
  else
    let l := "captcha-" ++ label
    if env.captchaResolved then (.ok (), [.snapshot l, .wait "captcha"])
    else (.error (.captchaTimeout (env.snapshotDir l)), [.snapshot l, .wait "captcha"])

/-- The `hasOtp` signal of `#maybeHandleTwoFactor`: a visible one-time-code
input or visible verification-code phrasing; each query failure collapses
to `false`. -/
def twoFactorPresent (env : ChallengeEnv) : Bool :=
  catchD env.otpInputVisible false || catchD env.twoFactorTextVisible false

/-- `#maybeHandleTwoFactor`: no-op when `hasOtp` is false; otherwise
snapshot, wait, and on timeout fail with a snapshotted error. -/
def maybeHandleTwoFactor (env : ChallengeEnv) (label : String) :
    Except BizError Unit × List Eff :=
  if !twoFactorPresent env then (.ok (), [])
  else
    let l := "twofactor-" ++ label
    if env.twoFactorResolved then (.ok (), [.snapshot l, .wait "twofactor"])
    else (.error (.twoFactorTimeout (env.snapshotDir l)), [.snapshot l, .wait "twofactor"])

/-- The URL test `/access-denied|blocked|forbidden|challenge/i.test(url)`. -/
def likelyBlockUrl (url : String) : Bool :=
  containsCI url "access-denied" || containsCI url "blocked"
    || containsCI url "forbidden" || containsCI url "challenge"

/-- `title.trim().toLowerCase() === "error: the request could not be satisfied"`. -/
def cloudfrontBlockTitle (t : String) : Bool :=
  lowerChars (trimChars t.toList) == "error: the request could not be satisfied".toList

/-- The block signal of `#maybeThrowIfBlocked`: block-indicating URL, the
CloudFront block title (title query failure collapses to `""`), or visible
CloudFront block text (query failure collapses to `false`). -/
def blockDetected (env : ChallengeEnv) : Bool :=
  likelyBlockUrl env.pageUrl
    || cloudfrontBlockTitle (catchD env.pageTitle "")
    || catchD env.cloudfrontTextVisible false

/-- `#maybeThrowIfBlocked`: no-op when no block signal; otherwise snapshot
and fail immediately (a block is never waited out). -/
def maybeThrowIfBlocked (env : ChallengeEnv) (label : String) :
    Except BizError Unit × List Eff :=
  if !blockDetected env then (.ok (), [])
  else
    let l := "blocked-" ++ label
    (.error (.blocked (env.snapshotDir l)), [.snapshot l])

/-- `#handleChallengesOrBlocks`: Captcha, then TwoFactor, then Block check,
sequentially; a failure aborts the pass. -/
def handleChallengesOrBlocks (env : ChallengeEnv) (label : String) :
    Except BizError Unit × List Eff :=
  match maybeHandleCaptcha env label with
  | (.error e, effs) => (.error e, effs)
  | (.ok _, e1) =>
    match maybeHandleTwoFactor env label with
    | (.error e, effs) => (.error e, e1 ++ effs)
    | (.ok _, e2) =>
      match maybeThrowIfBlocked env label with
      | (.error e, effs) => (.error e, e1 ++ e2 ++ effs)
      | (.ok _, e3) => (.ok (), e1 ++ e2 ++ e3)

/-- The same challenge environment with every fallible query's failure
replaced by the default the source's `.catch` collapses it to: count `0`,
bounding box `null`, visibilities `false`, title `""`. -/
def defaultedChallengeEnv (env : ChallengeEnv) : ChallengeEnv :=
  { env with
    captcha :=
      { iframeCount := .ok (catchD env.captcha.iframeCount 0)
        boundingBox := fun i => .ok (catchD (env.captcha.boundingBox i) none) }
    otpInputVisible := .ok (catchD env.otpInputVisible false)
    twoFactorTextVisible := .ok (catchD env.twoFactorTextVisible false)
    pageTitle := .ok (catchD env.pageTitle "")
    cloudfrontTextVisible := .ok (catchD env.cloudfrontTextVisible false) }

/-- Visibility of the login form's two fields as page queries (each a
`locator.first().isVisible()` that may fail). -/
structure LoginFormState where
  emailVisible : Except Unit Bool
  passwordVisible : Except Unit Bool

/-- `#isEmailPasswordLoginVisible`: the visibility of the first matching
email-type input, with a query failure collapsed to `false`.  The password
locator is never consulted here. -/
def isEmailPasswordLoginVisible (s : LoginFormState) : Bool :=
  catchD s.emailVisible false

/-- Oracle environment of one `#login` attempt. -/
structure LoginEnv where
  challengeStart : ChallengeEnv
  emailVisible : Except Unit Bool
  passwordVisible : Except Unit Bool
  submitRoleVisible : Except Unit Bool
  clickOk : Except Unit Unit
  challengePost : ChallengeEnv
  postForm : LoginFormState
  snapshotDir : String → String

/-- `#login`: challenge pass, field-visibility checks, fills, one submit
click (role-preferred with selector fallback), bounded URL wait (failure
swallowed), post-submit challenge pass, and the final still-visible
re-check via `#isEmailPasswordLoginVisible`. -/
def loginRun (env : LoginEnv) : Except BizError Unit × List Eff :=
  match handleChallengesOrBlocks env.challengeStart "login-start" with
  | (.error e, effs) => (.error e, effs)
  | (.ok _, effs1) =>
    if !(catchD env.emailVisible false && catchD env.passwordVisible false) then
      (.error (.loginFieldsMissing (env.snapshotDir "biz-login-missing-fields")),
        effs1 ++ [.snapshot "biz-login-missing-fields"])
    else
      let clickTarget :=
        if catchD env.submitRoleVisible false then "submit-role" else "submit-fallback"
      let effs2 := effs1 ++ [.fill "email", .fill "password", .click clickTarget]
      match env.clickOk with
      | .error _ =>
        (.error (.loginSubmitFailed (env.snapshotDir "biz-login-submit-click-failed")),
          effs2 ++ [.snapshot "biz-login-submit-click-failed"])
      | .ok _ =>
        let effs3 := effs2 ++ [.waitUrl]
        match handleChallengesOrBlocks env.challengePost "login-post-submit" with
        | (.error e, effsC) => (.error e, effs3 ++ effsC)
        | (.ok _, effsC) =>
          if isEmailPasswordLoginVisible env.postForm then
            (.error (.loginDidNotSucceed (env.snapshotDir "biz-login-still-visible")),
              effs3 ++ effsC ++ [.snapshot "biz-login-still-visible"])
          else (.ok (), effs3 ++ effsC)

/-- Oracle environment of one `goto`: the navigation outcome, the two
best-effort cookie-overlay queries, and the challenge pass that follows. -/
structure GotoEnv where
  nav : Except Unit Unit
  overlay1Visible : Except Unit Bool
  overlay2Visible : Except Unit Bool
  challenge : ChallengeEnv

/-- `#maybeDismissOverlays`: best-effort clicks on known consent buttons;
visibility and click failures are swallowed, so this only contributes
trace effects. -/
def dismissOverlays (g : GotoEnv) : List Eff :=
  (if catchD g.overlay1Visible false then [Eff.click "overlay"] else [])
    ++ (if catchD g.overlay2Visible false then [Eff.click "overlay"] else [])

/-- `goto(url)`: navigate (an uncaught navigation failure propagates), then
dismiss overlays, then run the full challenge pass. -/
def gotoRun (g : GotoEnv) (url label : String) : Except BizError Unit × List Eff :=
  match g.nav with
  | .error _ => (.error .navFailed, [.goto url])
  | .ok _ =>
    match handleChallengesOrBlocks g.challenge label with
    | (r, effs) => (r, .goto url :: (dismissOverlays g ++ effs))

/-- Credentials as supplied to `ensureAuthenticated`. -/
structure Credentials where
  username : String
  password : String
deriving DecidableEq

/-- Oracle environment of one `ensureAuthenticated` run. -/
structure AuthEnv where
  gotoLogin : GotoEnv
  initialForm : LoginFormState
  creds : Option Credentials
  login : LoginEnv
  gotoHome : GotoEnv
  finalUrl : String
  snapshotDir : String → String

/-- Steps of `ensureAuthenticated` up to the post-login host check:
`start()`, `goto` to the login surface, the already-authenticated decision
via `#isEmailPasswordLoginVisible`, and (when the form is visible) the
missing-credentials failure or the `#login` attempt. -/
def authPhase1 (env : AuthEnv) : Except BizError Unit × List Eff :=
  match gotoRun env.gotoLogin "https://biz.yelp.com/login" "navigation" with
  | (.error e, effs) => (.error e, .start :: effs)
  | (.ok _, effs1) =>
    if isEmailPasswordLoginVisible env.initialForm then
      match env.creds with
      | none =>
        (.error (.missingCredentials
            (env.snapshotDir "biz-login-visible-but-missing-credentials")),
          .start :: effs1 ++ [.snapshot "biz-login-visible-but-missing-credentials"])
      | some _ =>
        match loginRun env.login with
        | (.error e, effsL) => (.error e, .start :: effs1 ++ effsL)
        | (.ok _, effsL) => (.ok (), .start :: effs1 ++ effsL)
    else (.ok (), .start :: effs1)

/-- `ensureAuthenticated`: after `authPhase1`, `goto` the authenticated
home surface, read the landed host, and fail (snapshotted) exactly when it
is the marketing host `business.yelp.com`. -/
def ensureAuthenticatedRun (env : AuthEnv) : Except BizError Unit × List Eff :=
  match authPhase1 env with
  | (.error e, effs) => (.error e, effs)
  | (.ok _, effs1) =>
    match gotoRun env.gotoHome "https://biz.yelp.com/" "navigation" with
    | (.error e, effs2) => (.error e, effs1 ++ effs2)
    | (.ok _, effs2) =>
      match parseHost env.finalUrl with
      | none => (.error .urlParseFailed, effs1 ++ effs2)
      | some host =>
        if host == "business.yelp.com" then
          (.error (.unexpectedRedirect
              (env.snapshotDir "biz-auth-redirected-to-marketing")),
            effs1 ++ effs2 ++ [.snapshot "biz-auth-redirected-to-marketing"])
        else (.ok (), effs1 ++ effs2)

/-- Oracle environment of one `GET /yelp/biz/status` request: whether
`yelpBiz.page()` succeeds, plus each page query the handler makes. -/
structure StatusEnv where
  pageStarted : Bool
  url : Except Unit String
  title : Except Unit String
  captcha : CaptchaQueryEnv
  twoFactorVisible : Except Unit Bool
  loginVisible : Except Unit Bool

/-- The two response shapes of `GET /yelp/biz/status`. -/
inductive StatusResponse
  | notStarted
  | started (url : String) (host : Option String) (title : Option String)
      (captchaVisible twoFactorVisible loginVisible marketingSite : Bool)
deriving DecidableEq

/-- The body of the status handler's `try` block: `page()` (throws when the
session is unstarted), the bare `page.url()` read, and the individually
guarded title/captcha/two-factor/login/host queries.  An uncaught failure
propagates as `.error` to the outer catch. -/
def statusBody (env : StatusEnv) : Except Unit StatusResponse :=
  if !env.pageStarted then .error ()
  else
    match env.url with
    | .error e => .error e
    | .ok url =>
      let title : Option String :=
        match env.title with
        | .ok t => some t
        | .error _ => none
      let host := parseHost url
      .ok (.started url host title
        (captchaChallengeVisible env.captcha)
        (catchD env.twoFactorVisible false)
        (catchD env.loginVisible false)
        (host == some "business.yelp.com"))

/-- The full `GET /yelp/biz/status` handler: the outer `try/catch` collapses
any uncaught failure to `{ started: false }`. -/
def statusHandler (env : StatusEnv) : StatusResponse :=
  match statusBody env with
  | .ok r => r
  | .error _ => .notStarted

/-- The fixed allow-list of the `POST /yelp/biz/navigate` handler. -/
def allowList : List String :=
  ["https://biz.yelp.com/", "https://business.yelp.com/", "https://www.yelp.com/"]

/-- The allow-list refine: `allowedPrefixes.some((p) => u.startsWith(p))`. -/
def urlAllowed (u : String) : Bool := allowList.any fun p => strStartsWith u p

/-- `z.string().min(1).optional()` applied to `captureLabel`. -/
def labelValid : Option String → Bool
  | none => true
  | some l => decide (1 ≤ l.length)

/-- The request body of `POST /yelp/biz/navigate`. -/
structure NavigateBody where
  url : String
  captureLabel : Option String

/-- `Body.safeParse` succeeding: the url parses (`z.string().url()`), it
starts with an allow-listed prefix (the refine), and the optional capture
label is nonempty. -/
def navigateBodyValid (b : NavigateBody) : Bool :=
  urlParses b.url && urlAllowed b.url && labelValid b.captureLabel

/-- The three response shapes of `POST /yelp/biz/navigate`: the 400
invalid-body reply, a rejected task promise, or the success payload
`{ url, title, artifactsDir }`. -/
inductive NavResponse
  | badRequest
  | failed (e : BizError)
  | ok (url title : String) (artifactsDir : Option String)
deriving DecidableEq

/-- Oracle environment of the navigate handler's queued task. -/
structure NavEnv where
  gotoEnv : GotoEnv
  finalUrl : String
  title : Except Unit String
  captureDir : String

/-- `POST /yelp/biz/navigate`: validate the body first (an invalid body is
rejected with no queued task at all), then enqueue `start()`, `goto(url)`,
the optional labeled capture, and the `{ url, title, artifactsDir }`
payload. -/
def navigateHandler (b : NavigateBody) (env : NavEnv) : NavResponse × List Eff :=
  if !navigateBodyValid b then (.badRequest, [])
  else
    match gotoRun env.gotoEnv b.url "navigation" with
    | (.error e, effs) => (.failed e, .start :: effs)
    | (.ok _, effs) =>
      let capEffs : List Eff :=
        match b.captureLabel with
        | some l => [.snapshot l]
        | none => []
      match env.title with
      | .error _ => (.failed .queryError, .start :: effs ++ capEffs)
      | .ok t =>
        (.ok env.finalUrl t (b.captureLabel.map fun _ => env.captureDir),
          .start :: effs ++ capEffs)

/-- A task submitted to the serial queue: an effectful computation on the
shared session state that either fulfills with an `α` or rejects with an
`ε`, and in either case leaves a successor state. -/
def QTask (σ ε α : Type) : Type := σ → Except ε α × σ

/-- `SerialQueue.enqueue`: `run = tail.then(fn, fn)` attaches `fn` after
the current tail regardless of the predecessor's outcome, and
`tail = run.then(() => undefined, () => undefined)` makes `fn`'s settlement
the new tail while discarding its outcome — so the chain built by repeated
enqueues is exactly the submission-ordered list of tasks. -/
def SerialQueue.enqueue {σ ε α : Type} (q : List (QTask σ ε α)) (fn : QTask σ ε α) :
    List (QTask σ ε α) := q ++ [fn]

/-- The queue built by enqueuing `tasks` in order onto the initially
resolved tail. -/
def SerialQueue.ofEnqueues {σ ε α : Type} (tasks : List (QTask σ ε α)) :
    List (QTask σ ε α) := tasks.foldl SerialQueue.enqueue []

/-- Draining the promise chain: the head task runs on the current state;
when it settles — fulfilled or rejected — the next task runs on the state
it left.  Each position of the result list is the settlement of the handle
returned by the corresponding `enqueue`. -/
def SerialQueue.drain {σ ε α : Type} :
    List (QTask σ ε α) → σ → List (Except ε α) × σ
  | [], s => ([], s)
  | t :: ts, s =>
    let r := t s
    let rest := SerialQueue.drain ts r.2
    (r.1 :: rest.1, rest.2)

/-- The session state seen by the `i`-th task: the fold of its `i`
predecessors over the initial state (single-flight, submission order). -/
def SerialQueue.stateAfter {σ ε α : Type} (q : List (QTask σ ε α)) (s : σ) (i : Nat) : σ :=
  (q.take i).foldl (fun st t => (t st).2) s

/-- The post-zod environment data consumed by `resolveBizCredentials`:
each variable is `none` when unset (or set to whitespace). -/
structure EnvCredData where
  yelpBusinessUsername : Option String
  yelpBusinessPassword : Option String
  yelpBizUsername : Option String
  yelpBizPassword : Option String
deriving DecidableEq

/-- Which credential pair a resolved credential came from. -/
inductive CredSource
  | businessVars
  | bizVars
deriving DecidableEq

/-- A resolved credential pair. -/
structure BizCreds where
  username : String
  password : String
  source : CredSource
deriving DecidableEq

/-- The errors `resolveBizCredentials` can throw. -/
inductive CredError
  | incompleteBusinessPair
  | incompleteBizPair
  | ambiguousPairs
deriving DecidableEq

/-- `resolveBizCredentials`: reject a half-set pair (either naming scheme),
collect fully-set pairs as candidates, reject two candidates as ambiguous,
return `none` for zero candidates and the single candidate otherwise. -/
def resolveBizCredentials (d : EnvCredData) : Except CredError (Option BizCreds) :=
  if d.yelpBusinessUsername.isSome != d.yelpBusinessPassword.isSome then
    .error .incompleteBusinessPair
  else if d.yelpBizUsername.isSome != d.yelpBizPassword.isSome then
    .error .incompleteBizPair
  else
    let candidates : List BizCreds :=
      (match d.yelpBusinessUsername, d.yelpBusinessPassword with
        | some u, some p => [⟨u, p, .businessVars⟩]
        | _, _ => []) ++
      (match d.yelpBizUsername, d.yelpBizPassword with
        | some u, some p => [⟨u, p, .bizVars⟩]
        | _, _ => [])
    match candidates with
    | [] => .ok none
    | [c] => .ok (some c)
    | _ => .error .ambiguousPairs

theorem serialQueue_foldl_enqueue {σ ε α : Type} (tasks acc : List (QTask σ ε α)) :
    List.foldl SerialQueue.enqueue acc tasks = acc ++ tasks := by
  induction tasks generalizing acc with
  | nil => simp
  | cons t ts ih => simp [SerialQueue.enqueue, ih]

theorem serialQueue_drain_length {σ ε α : Type} (q : List (QTask σ ε α)) (s : σ) :
    (SerialQueue.drain q s).1.length = q.length := by
  induction q generalizing s with
  | nil => rfl
  | cons t ts ih => simp [SerialQueue.drain, ih]

theorem serialQueue_drain_get {σ ε α : Type} (q : List (QTask σ ε α)) (s : σ)
    (i : Nat) (h : i < q.length) :
    (SerialQueue.drain q s).1[i]? =
      some ((q.get ⟨i, h⟩) (SerialQueue.stateAfter q s i)).1 := by
  induction q generalizing s i with
  | nil => exact absurd h (Nat.not_lt_zero i)
  | cons t ts ih =>
    cases i with
    | zero => simp [SerialQueue.drain, SerialQueue.stateAfter]
    | succ j =>
      have hj : j < ts.length := Nat.lt_of_succ_lt_succ h
      have hrec := ih (t s).2 j hj
      simpa [SerialQueue.drain, SerialQueue.stateAfter] using hrec

/-- C1: every sequence of tasks enqueued on the Serial Command Queue forms
the submission-ordered chain (`ofEnqueues`); draining it executes every
task exactly once (the outcome list has one settlement per task) and the
`i`-th enqueue's handle settles with exactly its own task's outcome,
computed on the state left by its `i` predecessors — so tasks run strictly
in submission order, single-flight, and an earlier task's rejection never
prevents a later task from running or contaminates its handle. -/
theorem c1_serialQueue_fifo_isolation {σ ε α : Type}
    (tasks : List (QTask σ ε α)) (s : σ) (i : Nat) (h : i < tasks.length) :
    SerialQueue.ofEnqueues tasks = tasks ∧
    (SerialQueue.drain tasks s).1.length = tasks.length ∧
    (SerialQueue.drain tasks s).1[i]? =
      some ((tasks.get ⟨i, h⟩) (SerialQueue.stateAfter tasks s i)).1 :=
  ⟨by simpa [SerialQueue.ofEnqueues] using serialQueue_foldl_enqueue tasks [],
    serialQueue_drain_length tasks s,
    serialQueue_drain_get tasks s i h⟩

/-- A two-task queue whose first task rejects and bumps the state. -/
def c1Tasks : List (QTask Nat String Nat) :=
  [fun s => (Except.error "boom", s + 1), fun s => (Except.ok (s * 10), s + 1)]

/-- Witness for C1: after the first task rejects, the second still runs on
the state the first left and its handle fulfills with its own result. -/
theorem c1_serialQueue_fifo_isolation_witness :
    SerialQueue.ofEnqueues c1Tasks = c1Tasks ∧
    (SerialQueue.drain c1Tasks 0).1.length = 2 ∧
    (SerialQueue.drain c1Tasks 0).1[1]? = some (Except.ok 10) := by
  have h := c1_serialQueue_fifo_isolation c1Tasks 0 1 (by decide)
  exact ⟨h.1, h.2.1, h.2.2⟩

/-- C3: for every set of CAPTCHA-provider iframes found on the page, the
detector classifies an active challenge iff at least one iframe's rendered
bounding box is at least 100 wide and at least 100 high; an 80×80 box is
never classified as active, a 150×150 one always is. -/
theorem c3_captcha_threshold (n : Nat) (boxes : Nat → Option BoundingBox) :
    (captchaChallengeVisible ⟨Except.ok n, fun i => Except.ok (boxes i)⟩ = true ↔
      ∃ i, i < n ∧ ∃ b, boxes i = some b ∧
        (100 : ℚ) ≤ b.width ∧ (100 : ℚ) ≤ b.height) ∧
    (∀ b : BoundingBox, b.width = 80 → b.height = 80 →
      captchaChallengeVisible ⟨Except.ok n, fun _ => Except.ok (some b)⟩ = false) ∧
    (∀ b : BoundingBox, b.width = 150 → b.height = 150 → 0 < n →
      captchaChallengeVisible ⟨Except.ok n, fun _ => Except.ok (some b)⟩ = true) := by
  refine ⟨?_, ?_, ?_⟩
  · simp only [captchaChallengeVisible, catchD, List.any_eq_true, List.mem_range]
    constructor
    · rintro ⟨i, hi, hf⟩
      refine ⟨i, hi, ?_⟩
      cases hb : boxes i with
      | none => rw [hb] at hf; simp at hf
      | some b =>
        rw [hb] at hf
        simp only [Bool.and_eq_true, decide_eq_true_eq] at hf
        exact ⟨b, rfl, hf.1, hf.2⟩
    · rintro ⟨i, hi, b, hb, hw, hh⟩
      refine ⟨i, hi, ?_⟩
      rw [hb]
      simp [hw, hh]
  · intro b hw hh
    simp only [captchaChallengeVisible, catchD]
    rw [List.any_eq_false]
    intro i _
    simp [hw, hh]
    norm_num
  · intro b hw hh hn
    simp only [captchaChallengeVisible, catchD, List.any_eq_true, List.mem_range]
    refine ⟨0, hn, ?_⟩
    simp [hw, hh]
    norm_num

/-- Witness for C3: concrete 80×80 and 150×150 iframes. -/
theorem c3_captcha_threshold_witness :
    captchaChallengeVisible
      ⟨Except.ok 1, fun _ => Except.ok (some ⟨0, 0, 80, 80⟩)⟩ = false ∧
    captchaChallengeVisible
      ⟨Except.ok 1, fun _ => Except.ok (some ⟨0, 0, 150, 150⟩)⟩ = true := by
  refine ⟨(c3_captcha_threshold 1 fun _ => some ⟨0, 0, 80, 80⟩).2.1 ⟨0, 0, 80, 80⟩ rfl rfl, ?_⟩
  exact (c3_captcha_threshold 1 fun _ => some ⟨0, 0, 150, 150⟩).2.2
    ⟨0, 0, 150, 150⟩ rfl rfl (by decide)

theorem maybeHandleCaptcha_shape (env : ChallengeEnv) (label : String) :
    (maybeHandleCaptcha env label).1 = .ok () ∨
      ∃ d, (maybeHandleCaptcha env label).1 = .error (.captchaTimeout d) := by
  unfold maybeHandleCaptcha
  split
  · exact Or.inl rfl
  · split
    · exact Or.inl rfl
    · exact Or.inr ⟨_, rfl⟩

theorem maybeHandleTwoFactor_shape (env : ChallengeEnv) (label : String) :
    (maybeHandleTwoFactor env label).1 = .ok () ∨
      ∃ d, (maybeHandleTwoFactor env label).1 = .error (.twoFactorTimeout d) := by
  unfold maybeHandleTwoFactor
  split
  · exact Or.inl rfl
  · split
    · exact Or.inl rfl
    · exact Or.inr ⟨_, rfl⟩

theorem maybeThrowIfBlocked_shape (env : ChallengeEnv) (label : String) :
    (maybeThrowIfBlocked env label).1 = .ok () ∨
      ∃ d, (maybeThrowIfBlocked env label).1 = .error (.blocked d) := by
  unfold maybeThrowIfBlocked
  split
  · exact Or.inl rfl
  · exact Or.inr ⟨_, rfl⟩

theorem handleChallenges_shape (env : ChallengeEnv) (label : String) :
    (handleChallengesOrBlocks env label).1 = .ok () ∨
      (∃ d, (handleChallengesOrBlocks env label).1 = .error (.captchaTimeout d)) ∨
      (∃ d, (handleChallengesOrBlocks env label).1 = .error (.twoFactorTimeout d)) ∨
      (∃ d, (handleChallengesOrBlocks env label).1 = .error (.blocked d)) := by
  rcases hc : maybeHandleCaptcha env label with ⟨rc, lc⟩
  have hs1 := maybeHandleCaptcha_shape env label
  rw [hc] at hs1
  rcases ht : maybeHandleTwoFactor env label with ⟨rt, lt⟩
  have hs2 := maybeHandleTwoFactor_shape env label
  rw [ht] at hs2
  rcases hb : maybeThrowIfBlocked env label with ⟨rb, lb⟩
  have hs3 := maybeThrowIfBlocked_shape env label
  rw [hb] at hs3
  simp only [Prod.fst] at hs1 hs2 hs3
  rcases hs1 with h1 | ⟨d1, h1⟩
  · rcases hs2 with h2 | ⟨d2, h2⟩
    · rcases hs3 with h3 | ⟨d3, h3⟩
      · subst h1; subst h2; subst h3
        exact Or.inl (by simp [handleChallengesOrBlocks, hc, ht, hb])
      · subst h1; subst h2; subst h3
        exact Or.inr (Or.inr (Or.inr ⟨d3, by simp [handleChallengesOrBlocks, hc, ht, hb]⟩))
    · subst h1; subst h2
      exact Or.inr (Or.inr (Or.inl ⟨d2, by simp [handleChallengesOrBlocks, hc, ht]⟩))
  · subst h1
    exact Or.inr (Or.inl ⟨d1, by simp [handleChallengesOrBlocks, hc]⟩)

/-- C7: in every detection pass, each individual page query that fails is
treated as absent/zero/false (the pass behaves exactly as on the
environment with every failed query replaced by its `.catch` default), and
a pass can only fail with a challenge timeout or block detection — a query
exception never propagates out of detection. -/
theorem c7_detection_swallows_query_failures (env : ChallengeEnv) (label : String) :
    handleChallengesOrBlocks (defaultedChallengeEnv env) label =
      handleChallengesOrBlocks env label ∧
    ((handleChallengesOrBlocks env label).1 = .ok () ∨
      (∃ d, (handleChallengesOrBlocks env label).1 = .error (.captchaTimeout d)) ∨
      (∃ d, (handleChallengesOrBlocks env label).1 = .error (.twoFactorTimeout d)) ∨
      (∃ d, (handleChallengesOrBlocks env label).1 = .error (.blocked d))) ∧
    (handleChallengesOrBlocks env label).1 ≠ .error .queryError := by
  refine ⟨rfl, handleChallenges_shape env label, ?_⟩
  rcases handleChallenges_shape env label with h | ⟨d, h⟩ | ⟨d, h⟩ | ⟨d, h⟩ <;>
    rw [h] <;> simp

/-- C8: for each challenge kind, when its detection signals report the
challenge as not present the pass returns immediately with no effect — no
snapshot, no wait, no error. -/
theorem c8_not_present_is_noop (env : ChallengeEnv) (label : String) :
    (captchaChallengeVisible env.captcha = false →
      maybeHandleCaptcha env label = (.ok (), [])) ∧
    (twoFactorPresent env = false →
      maybeHandleTwoFactor env label = (.ok (), [])) ∧
    (blockDetected env = false →
      maybeThrowIfBlocked env label = (.ok (), [])) := by
  refine ⟨fun h => ?_, fun h => ?_, fun h => ?_⟩
  · simp [maybeHandleCaptcha, h]
  · simp [maybeHandleTwoFactor, h]
  · simp [maybeThrowIfBlocked, h]

/-- A page with no challenge signals: every detection query fails (and so
collapses to its default) and the URL and title carry no block markers. -/
def quietChallengeEnv : ChallengeEnv :=
  { captcha := ⟨Except.error (), fun _ => Except.error ()⟩
    captchaResolved := true
    otpInputVisible := Except.error ()
    twoFactorTextVisible := Except.error ()
    twoFactorResolved := true
    pageUrl := "https://biz.yelp.com/login"
    pageTitle := Except.error ()
    cloudfrontTextVisible := Except.error ()
    snapshotDir := fun _ => "artifacts/yelp-biz/capture" }

/-- Witness for C8: on the quiet page every pass is a silent no-op. -/
theorem c8_not_present_is_noop_witness :
    maybeHandleCaptcha quietChallengeEnv "navigation" = (.ok (), []) ∧
    maybeHandleTwoFactor quietChallengeEnv "navigation" = (.ok (), []) ∧
    maybeThrowIfBlocked quietChallengeEnv "navigation" = (.ok (), []) := by
  have h := c8_not_present_is_noop quietChallengeEnv "navigation"
  exact ⟨h.1 (by decide), h.2.1 (by decide), h.2.2 (by decide)⟩

/-- C4 (amended): `status()` never throws — for every session state and
every combination of internal failures it returns one of the two response
shapes; it returns `{started: false}` whenever the session is not started
or the unguarded `page.url()` read fails, while failures of the
individually guarded queries degrade inside a started-shaped response. -/
theorem c4_status_never_throws (env : StatusEnv) :
    (statusHandler env = .notStarted ∨
      ∃ u h t c tf lv m, statusHandler env = .started u h t c tf lv m) ∧
    (env.pageStarted = false → statusHandler env = .notStarted) ∧
    (env.url = .error () → statusHandler env = .notStarted) := by
  refine ⟨?_, fun h => ?_, fun h => ?_⟩
  · cases hs : env.pageStarted with
    | false => exact Or.inl (by simp [statusHandler, statusBody, hs])
    | true =>
      cases hu : env.url with
      | error e => exact Or.inl (by simp [statusHandler, statusBody, hs, hu])
      | ok u =>
        refine Or.inr ⟨u, parseHost u,
          (match env.title with | .ok t => some t | .error _ => none),
          captchaChallengeVisible env.captcha, catchD env.twoFactorVisible false,
          catchD env.loginVisible false, parseHost u == some "business.yelp.com",
          ?_⟩
        simp [statusHandler, statusBody, hs, hu]
  · simp [statusHandler, statusBody, h]
  · cases hs : env.pageStarted with
    | false => simp [statusHandler, statusBody, hs]
    | true => simp [statusHandler, statusBody, hs, h]

/-- An unstarted session environment for the status handler. -/
def c4UnstartedEnv : StatusEnv :=
  { pageStarted := false
    url := Except.error ()
    title := Except.error ()
    captcha := ⟨Except.error (), fun _ => Except.error ()⟩
    twoFactorVisible := Except.error ()
    loginVisible := Except.error () }

/-- Witness for C4: on an unstarted session, `status()` degrades to the
not-started response. -/
theorem c4_status_never_throws_witness :
    statusHandler c4UnstartedEnv = .notStarted :=
  (c4_status_never_throws c4UnstartedEnv).2.1 rfl

/-- A started session whose title query fails while everything else
succeeds. -/
def c4TitleFailEnv : StatusEnv :=
  { pageStarted := true
    url := Except.ok "https://biz.yelp.com/login"
    title := Except.error ()
    captcha := ⟨Except.ok 0, fun _ => Except.ok none⟩
    twoFactorVisible := Except.ok false
    loginVisible := Except.ok false }

/-- C4 counterexample: the title query — an internal step — fails, yet the
handler answers with a started-shaped response (title degraded to null),
not `{started: false}` as the claim's failure clause demands. -/
theorem c4_status_counterexample :
    c4TitleFailEnv.title = Except.error () ∧
    statusHandler c4TitleFailEnv =
      .started "https://biz.yelp.com/login" (some "biz.yelp.com") none
        false false false false := by
  exact ⟨rfl, by decide⟩

/-- C9: the login-form-visibility predicate returns true iff the
first-matching email input query reports visible; the password field's
visibility is never consulted — neither in the predicate itself, nor at
its two call sites (the initial already-authenticated decision of
`ensureAuthenticated` and the post-submit re-check of `#login`) — so a
page showing only a password prompt (no visible email input) is classified
as having no login form. -/
theorem c9_login_visibility_email_only (s : LoginFormState) :
    (isEmailPasswordLoginVisible s = true ↔ s.emailVisible = .ok true) ∧
    (∀ pv pv' : Except Unit Bool,
      isEmailPasswordLoginVisible ⟨s.emailVisible, pv⟩ =
        isEmailPasswordLoginVisible ⟨s.emailVisible, pv'⟩) ∧
    (∀ (envL : LoginEnv) (pv : Except Unit Bool),
      loginRun { envL with postForm := ⟨envL.postForm.emailVisible, pv⟩ } =
        loginRun envL) ∧
    (∀ (envA : AuthEnv) (pv : Except Unit Bool),
      ensureAuthenticatedRun
          { envA with initialForm := ⟨envA.initialForm.emailVisible, pv⟩ } =
        ensureAuthenticatedRun envA) ∧
    (s.emailVisible = .ok false ∨ s.emailVisible = .error () →
      isEmailPasswordLoginVisible s = false) := by
  refine ⟨?_, fun pv pv' => rfl, fun envL pv => rfl, fun envA pv => rfl, fun h => ?_⟩
  · cases hv : s.emailVisible with
    | ok b => cases b <;> simp [isEmailPasswordLoginVisible, catchD, hv]
    | error e => simp [isEmailPasswordLoginVisible, catchD, hv]
  · rcases h with h | h <;> simp [isEmailPasswordLoginVisible, catchD, h]

/-- Witness for C9: a page with a visible password prompt but no visible
email input is classified as showing no login form. -/
theorem c9_login_visibility_email_only_witness :
    isEmailPasswordLoginVisible ⟨Except.ok false, Except.ok true⟩ = false :=
  (c9_login_visibility_email_only ⟨Except.ok false, Except.ok true⟩).2.2.2.2
    (Or.inl rfl)

/-- Effects a challenge-detection pass may emit: snapshots and waits only. -/
def passiveEff : Eff → Bool
  | .snapshot _ => true
  | .wait _ => true
  | _ => false

/-- A submit click of the login orchestrator (role-preferred locator or
the selector fallback). -/
def isSubmitClick : Eff → Bool
  | .click t => t == "submit-role" || t == "submit-fallback"
  | _ => false

/-- Number of submit clicks recorded in a trace. -/
def countSubmitClicks (l : List Eff) : Nat := (l.filter isSubmitClick).length

/-- Number of fills of a given field recorded in a trace. -/
def countFills (f : String) (l : List Eff) : Nat :=
  (l.filter fun e => e == Eff.fill f).length

theorem maybeHandleCaptcha_passive (env : ChallengeEnv) (label : String) :
    ∀ e ∈ (maybeHandleCaptcha env label).2, passiveEff e = true := by
  unfold maybeHandleCaptcha
  split
  · simp
  · split <;> simp [passiveEff]

theorem maybeHandleTwoFactor_passive (env : ChallengeEnv) (label : String) :
    ∀ e ∈ (maybeHandleTwoFactor env label).2, passiveEff e = true := by
  unfold maybeHandleTwoFactor
  split
  · simp
  · split <;> simp [passiveEff]

theorem maybeThrowIfBlocked_passive (env : ChallengeEnv) (label : String) :
    ∀ e ∈ (maybeThrowIfBlocked env label).2, passiveEff e = true := by
  unfold maybeThrowIfBlocked
  split
  · simp
  · simp [passiveEff]

theorem handleChallenges_passive (env : ChallengeEnv) (label : String) :
    ∀ e ∈ (handleChallengesOrBlocks env label).2, passiveEff e = true := by
  have h1 := maybeHandleCaptcha_passive env label
  have h2 := maybeHandleTwoFactor_passive env label
  have h3 := maybeThrowIfBlocked_passive env label
  rcases hc : maybeHandleCaptcha env label with ⟨rc, lc⟩
  rcases ht : maybeHandleTwoFactor env label with ⟨rt, lt⟩
  rcases hb : maybeThrowIfBlocked env label with ⟨rb, lb⟩
  rw [hc] at h1; rw [ht] at h2; rw [hb] at h3
  simp only [Prod.snd] at h1 h2 h3
  cases rc with
  | error e => simpa [handleChallengesOrBlocks, hc] using h1
  | ok _ =>
    cases rt with
    | error e =>
      intro e' he'
      simp [handleChallengesOrBlocks, hc, ht] at he'
      rcases he' with he' | he'
      · exact h1 e' he'
      · exact h2 e' he'
    | ok _ =>
      cases rb with
      | error e =>
        intro e' he'
        simp [handleChallengesOrBlocks, hc, ht, hb] at he'
        rcases he' with he' | he' | he'
        · exact h1 e' he'
        · exact h2 e' he'
        · exact h3 e' he'
      | ok _ =>
        intro e' he'
        simp [handleChallengesOrBlocks, hc, ht, hb] at he'
        rcases he' with he' | he' | he'
        · exact h1 e' he'
        · exact h2 e' he'
        · exact h3 e' he'

theorem counts_zero_of_passive (l : List Eff) (h : ∀ e ∈ l, passiveEff e = true) :
    countSubmitClicks l = 0 ∧ ∀ f, countFills f l = 0 := by
  induction l with
  | nil => exact ⟨rfl, fun f => rfl⟩
  | cons e rest ih =>
    have he := h e (List.mem_cons_self e rest)
    have hrest := ih fun x hx => h x (List.mem_cons_of_mem e hx)
    cases e with
    | snapshot lab =>
      refine ⟨?_, fun f => ?_⟩
      · simpa [countSubmitClicks, isSubmitClick] using hrest.1
      · simpa [countFills] using hrest.2 f
    | wait k =>
      refine ⟨?_, fun f => ?_⟩
      · simpa [countSubmitClicks, isSubmitClick] using hrest.1
      · simpa [countFills] using hrest.2 f
    | start => simp [passiveEff] at he
    | goto u => simp [passiveEff] at he
    | fill f' => simp [passiveEff] at he
    | click t => simp [passiveEff] at he
    | waitUrl => simp [passiveEff] at he

theorem countSubmitClicks_append (a b : List Eff) :
    countSubmitClicks (a ++ b) = countSubmitClicks a + countSubmitClicks b := by
  simp [countSubmitClicks, List.filter_append]

theorem countFills_append (f : String) (a b : List Eff) :
    countFills f (a ++ b) = countFills f a + countFills f b := by
  simp [countFills, List.filter_append]

theorem isSubmitClick_target (c : Bool) :
    isSubmitClick (Eff.click (if c then "submit-role" else "submit-fallback")) = true := by
  cases c <;> rfl

/-- C6: in every login attempt the submit click happens at most once and
each credential field is filled at most once (no retry of the submit); and
whenever the attempt reaches the post-submit re-check with both challenge
passes clean and the login form still visible, it fails with the
`LoginDidNotSucceed`-class error carrying the snapshot location, having
captured that snapshot. -/
theorem c6_login_did_not_succeed_no_retry (env : LoginEnv) :
    countSubmitClicks (loginRun env).2 ≤ 1 ∧
    countFills "email" (loginRun env).2 ≤ 1 ∧
    countFills "password" (loginRun env).2 ≤ 1 ∧
    ((handleChallengesOrBlocks env.challengeStart "login-start").1 = .ok () →
      catchD env.emailVisible false = true →
      catchD env.passwordVisible false = true →
      env.clickOk = .ok () →
      (handleChallengesOrBlocks env.challengePost "login-post-submit").1 = .ok () →
      isEmailPasswordLoginVisible env.postForm = true →
      (loginRun env).1 =
        .error (.loginDidNotSucceed (env.snapshotDir "biz-login-still-visible")) ∧
      Eff.snapshot "biz-login-still-visible" ∈ (loginRun env).2) := by
  rcases h1 : handleChallengesOrBlocks env.challengeStart "login-start" with ⟨r1, e1⟩
  have p1 := handleChallenges_passive env.challengeStart "login-start"
  rw [h1] at p1
  simp only [Prod.snd] at p1
  have z1 := counts_zero_of_passive e1 p1
  have z1s : (List.filter isSubmitClick e1).length = 0 := z1.1
  have z1f : ∀ f, (List.filter (fun e => e == Eff.fill f) e1).length = 0 := z1.2
  rcases h2 : handleChallengesOrBlocks env.challengePost "login-post-submit" with ⟨r2, e2⟩
  have p2 := handleChallenges_passive env.challengePost "login-post-submit"
  rw [h2] at p2
  simp only [Prod.snd] at p2
  have z2 := counts_zero_of_passive e2 p2
  have z2s : (List.filter isSubmitClick e2).length = 0 := z2.1
  have z2f : ∀ f, (List.filter (fun e => e == Eff.fill f) e2).length = 0 := z2.2
  cases r1 with
  | error e =>
    have hrun : loginRun env = (.error e, e1) := by simp [loginRun, h1]
    rw [hrun]
    refine ⟨?_, ?_, ?_, fun hok => ?_⟩
    · simp [countSubmitClicks, z1s]
    · simp [countFills, z1f]
    · simp [countFills, z1f]
    · simp at hok
  | ok u =>
    by_cases hf : (catchD env.emailVisible false && catchD env.passwordVisible false) = true
    · by_cases hclick : ∃ e', env.clickOk = .error e'
      · obtain ⟨e', hc⟩ := hclick
        have hrun : loginRun env =
            (.error (.loginSubmitFailed (env.snapshotDir "biz-login-submit-click-failed")),
              (e1 ++ [.fill "email", .fill "password",
                .click (if catchD env.submitRoleVisible false then "submit-role"
                  else "submit-fallback")]) ++
                [.snapshot "biz-login-submit-click-failed"]) := by
          simp [loginRun, h1, hf, hc]
        rw [hrun]
        refine ⟨?_, ?_, ?_, fun _ _ _ hok => ?_⟩
        · simp [countSubmitClicks, List.filter_append, z1s,
            isSubmitClick_target (catchD env.submitRoleVisible false), isSubmitClick]
        · simp [countFills, List.filter_append, z1f]
        · simp [countFills, List.filter_append, z1f]
        · rw [hc] at hok
          simp at hok
      · have hc : env.clickOk = .ok () := by
          cases hco : env.clickOk with
          | error e' => exact absurd ⟨e', hco⟩ hclick
          | ok u' => rfl
        cases r2 with
        | error e' =>
          have hrun : loginRun env =
              (.error e',
                ((e1 ++ [.fill "email", .fill "password",
                  .click (if catchD env.submitRoleVisible false then "submit-role"
                    else "submit-fallback")]) ++ [.waitUrl]) ++ e2) := by
            simp [loginRun, h1, hf, hc, h2]
          rw [hrun]
          refine ⟨?_, ?_, ?_, fun _ _ _ _ hok => ?_⟩
          · simp [countSubmitClicks, List.filter_append, z1s, z2s,
              isSubmitClick_target (catchD env.submitRoleVisible false), isSubmitClick]
          · simp [countFills, List.filter_append, z1f, z2f]
          · simp [countFills, List.filter_append, z1f, z2f]
          · simp at hok
        | ok u' =>
          by_cases hv : isEmailPasswordLoginVisible env.postForm = true
          · have hrun : loginRun env =
                (.error (.loginDidNotSucceed (env.snapshotDir "biz-login-still-visible")),
                  (((e1 ++ [.fill "email", .fill "password",
                    .click (if catchD env.submitRoleVisible false then "submit-role"
                      else "submit-fallback")]) ++ [.waitUrl]) ++ e2) ++
                    [.snapshot "biz-login-still-visible"]) := by
              simp [loginRun, h1, hf, hc, h2, hv]
            rw [hrun]
            refine ⟨?_, ?_, ?_, fun _ _ _ _ _ _ => ⟨rfl, by simp⟩⟩
            · simp [countSubmitClicks, List.filter_append, z1s, z2s,
                isSubmitClick_target (catchD env.submitRoleVisible false), isSubmitClick]
            · simp [countFills, List.filter_append, z1f, z2f]
            · simp [countFills, List.filter_append, z1f, z2f]
          · have hrun : loginRun env =
                (.ok (),
                  ((e1 ++ [.fill "email", .fill "password",
                    .click (if catchD env.submitRoleVisible false then "submit-role"
                      else "submit-fallback")]) ++ [.waitUrl]) ++ e2) := by
              simp [loginRun, h1, hf, hc, h2, hv]
            rw [hrun]
            refine ⟨?_, ?_, ?_, fun _ _ _ _ _ hvv => absurd hvv hv⟩
            · simp [countSubmitClicks, List.filter_append, z1s, z2s,
                isSubmitClick_target (catchD env.submitRoleVisible false), isSubmitClick]
            · simp [countFills, List.filter_append, z1f, z2f]
            · simp [countFills, List.filter_append, z1f, z2f]
    · have hrun : loginRun env =
          (.error (.loginFieldsMissing (env.snapshotDir "biz-login-missing-fields")),
            e1 ++ [.snapshot "biz-login-missing-fields"]) := by
        simp [loginRun, h1, hf]
      rw [hrun]
      refine ⟨?_, ?_, ?_, fun _ he hp => ?_⟩
      · simp [countSubmitClicks, List.filter_append, z1s, isSubmitClick]
      · simp [countFills, List.filter_append, z1f]
      · simp [countFills, List.filter_append, z1f]
      · exact absurd (by simp [he, hp]) hf

/-- A login attempt on a quiet page whose credentials are rejected: fields
visible and filled, submit clicked, yet the form is still visible after
the post-submit pass. -/
def c6LoginEnv : LoginEnv :=
  { challengeStart := quietChallengeEnv
    emailVisible := Except.ok true
    passwordVisible := Except.ok true
    submitRoleVisible := Except.ok true
    clickOk := Except.ok ()
    challengePost := quietChallengeEnv
    postForm := ⟨Except.ok true, Except.ok true⟩
    snapshotDir := fun _ => "artifacts/yelp-biz/capture" }

/-- Witness for C6: the rejected attempt fails with the
`LoginDidNotSucceed`-class error and clicked submit at most once. -/
theorem c6_login_did_not_succeed_no_retry_witness :
    (loginRun c6LoginEnv).1 =
      .error (.loginDidNotSucceed "artifacts/yelp-biz/capture") ∧
    countSubmitClicks (loginRun c6LoginEnv).2 ≤ 1 := by
  have h := c6_login_did_not_succeed_no_retry c6LoginEnv
  have h4 := h.2.2.2 rfl rfl rfl rfl rfl rfl
  exact ⟨h4.1, h.1⟩

/-- C2 (amended): after the pre-home phase succeeds, `ensureAuthenticated`
verifies the landed host against the marketing host only — it fails with
the snapshotted `UnexpectedRedirect`-class error exactly when the host is
`business.yelp.com`, and a successful run guarantees the host is not the
marketing host (but not that it equals `biz.yelp.com`). -/
theorem c2_post_login_host_check (env : AuthEnv) :
    ((authPhase1 env).1 = .ok () →
      (gotoRun env.gotoHome "https://biz.yelp.com/" "navigation").1 = .ok () →
      parseHost env.finalUrl = some "business.yelp.com" →
      (ensureAuthenticatedRun env).1 =
        .error (.unexpectedRedirect (env.snapshotDir "biz-auth-redirected-to-marketing"))) ∧
    ((ensureAuthenticatedRun env).1 = .ok () →
      parseHost env.finalUrl ≠ some "business.yelp.com") := by
  constructor
  · rcases hp : authPhase1 env with ⟨r1, e1⟩
    rcases hg : gotoRun env.gotoHome "https://biz.yelp.com/" "navigation" with ⟨r2, e2⟩
    intro h1 h2 h3
    simp only [Prod.fst] at h1 h2
    subst h1
    subst h2
    simp [ensureAuthenticatedRun, hp, hg, h3]
  · intro hok hmk
    rcases hp : authPhase1 env with ⟨r1, e1⟩
    cases r1 with
    | error e => simp [ensureAuthenticatedRun, hp] at hok
    | ok _ =>
      rcases hg : gotoRun env.gotoHome "https://biz.yelp.com/" "navigation" with ⟨r2, e2⟩
      cases r2 with
      | error e => simp [ensureAuthenticatedRun, hp, hg] at hok
      | ok _ => simp [ensureAuthenticatedRun, hp, hg, hmk] at hok

/-- A navigation that succeeds against a quiet page. -/
def quietGotoEnv : GotoEnv :=
  { nav := Except.ok ()
    overlay1Visible := Except.error ()
    overlay2Visible := Except.error ()
    challenge := quietChallengeEnv }

/-- An already-authenticated run (no login form on the login surface)
whose home navigation lands on `www.yelp.com`. -/
def c2AuthEnv : AuthEnv :=
  { gotoLogin := quietGotoEnv
    initialForm := ⟨Except.ok false, Except.ok false⟩
    creds := none
    login := c6LoginEnv
    gotoHome := quietGotoEnv
    finalUrl := "https://www.yelp.com/"
    snapshotDir := fun _ => "artifacts/yelp-biz/capture" }

/-- C2 counterexample: a run whose resulting host is `www.yelp.com` — not
the authenticated host `biz.yelp.com` — completes without any error, so
the code does not verify that the resulting host matches the authenticated
host; it only rejects the marketing host. -/
theorem c2_counterexample :
    (ensureAuthenticatedRun c2AuthEnv).1 = Except.ok () ∧
    parseHost c2AuthEnv.finalUrl = some "www.yelp.com" ∧
    some "www.yelp.com" ≠ some "biz.yelp.com" := by
  refine ⟨rfl, by decide, by decide⟩

/-- The same run landing on the marketing host. -/
def c2MarketingAuthEnv : AuthEnv :=
  { c2AuthEnv with finalUrl := "https://business.yelp.com/advertise" }

/-- Witness for C2 (amended): landing on `business.yelp.com` fails with
the snapshotted `UnexpectedRedirect`-class error. -/
theorem c2_post_login_host_check_witness :
    (ensureAuthenticatedRun c2MarketingAuthEnv).1 =
      .error (.unexpectedRedirect "artifacts/yelp-biz/capture") :=
  (c2_post_login_host_check c2MarketingAuthEnv).1 rfl rfl (by decide)

theorem urlParsesL_biz (t : List Char) :
    urlParsesL ("https://biz.yelp.com/".toList ++ t) = true := rfl

theorem urlParsesL_business (t : List Char) :
    urlParsesL ("https://business.yelp.com/".toList ++ t) = true := rfl

theorem urlParsesL_www (t : List Char) :
    urlParsesL ("https://www.yelp.com/".toList ++ t) = true := rfl

/-- Every allow-listed URL passes the `z.string().url()` check: the allow
list is made of full https origins, so the refine is the deciding filter. -/
theorem urlAllowed_parses (u : String) (h : urlAllowed u = true) :
    urlParses u = true := by
  have h' : listStartsWith u.toList "https://biz.yelp.com/".toList = true ∨
      listStartsWith u.toList "https://business.yelp.com/".toList = true ∨
      listStartsWith u.toList "https://www.yelp.com/".toList = true := by
    simpa [urlAllowed, allowList, strStartsWith] using h
  rcases h' with h1 | h1 | h1
  · obtain ⟨t, ht⟩ := (listStartsWith_iff _ _).mp h1
    rw [urlParses, ht]
    exact urlParsesL_biz t
  · obtain ⟨t, ht⟩ := (listStartsWith_iff _ _).mp h1
    rw [urlParses, ht]
    exact urlParsesL_business t
  · obtain ⟨t, ht⟩ := (listStartsWith_iff _ _).mp h1
    rw [urlParses, ht]
    exact urlParsesL_www t

/-- C5: a navigate request whose URL does not start with an allow-listed
prefix is rejected with the 400 reply before any browser interaction (no
session start, no goto, no snapshot — the effect trace is empty); an
allow-listed URL (with a well-formed optional label) passes validation,
and when its queued task's navigation succeeds the handler starts the
session, runs `goto`, optionally captures the labeled snapshot, and
returns the `{url, title, artifactsDir}` payload. -/
theorem c5_navigate_allowlist_boundary (b : NavigateBody) (env : NavEnv) :
    (urlAllowed b.url = false → navigateHandler b env = (.badRequest, [])) ∧
    (∀ t : String,
      urlAllowed b.url = true →
      labelValid b.captureLabel = true →
      (gotoRun env.gotoEnv b.url "navigation").1 = .ok () →
      env.title = .ok t →
      navigateHandler b env =
        (.ok env.finalUrl t (b.captureLabel.map fun _ => env.captureDir),
          .start :: ((gotoRun env.gotoEnv b.url "navigation").2 ++
            (match b.captureLabel with
              | some l => [Eff.snapshot l]
              | none => [])))) := by
  constructor
  · intro h
    simp [navigateHandler, navigateBodyValid, h]
  · intro t hA hL hG hT
    have hP := urlAllowed_parses b.url hA
    rcases hg : gotoRun env.gotoEnv b.url "navigation" with ⟨rg, eg⟩
    rw [hg] at hG
    simp only [Prod.fst] at hG
    subst hG
    simp [navigateHandler, navigateBodyValid, hP, hA, hL, hg, hT]

/-- Environment for a successful navigate task against a quiet page. -/
def c5NavEnv : NavEnv :=
  { gotoEnv := quietGotoEnv
    finalUrl := "https://biz.yelp.com/"
    title := Except.ok "Yelp for Business"
    captureDir := "artifacts/yelp-biz/capture" }

/-- Witness for C5: `https://evil.example/` is rejected with no effects,
while an allow-listed URL with a capture label navigates and returns the
payload. -/
theorem c5_navigate_allowlist_boundary_witness :
    navigateHandler ⟨"https://evil.example/", none⟩ c5NavEnv = (.badRequest, []) ∧
    navigateHandler ⟨"https://biz.yelp.com/", some "manual-biz-home"⟩ c5NavEnv =
      (.ok "https://biz.yelp.com/" "Yelp for Business"
          (some "artifacts/yelp-biz/capture"),
        [.start, .goto "https://biz.yelp.com/", .snapshot "manual-biz-home"]) := by
  constructor
  · exact (c5_navigate_allowlist_boundary ⟨"https://evil.example/", none⟩ c5NavEnv).1
      (by decide)
  · have h := (c5_navigate_allowlist_boundary
      ⟨"https://biz.yelp.com/", some "manual-biz-home"⟩ c5NavEnv).2
      "Yelp for Business" (by decide) (by decide) rfl rfl
    simpa using h

/-- C10: credential resolution throws whenever exactly one member of
either credential pair is set, throws the ambiguity error whenever both
pairs are fully set, returns null when no variable is set, and otherwise
returns the single fully-set pair. -/
theorem c10_credential_resolution (d : EnvCredData) :
    ((d.yelpBusinessUsername.isSome ≠ d.yelpBusinessPassword.isSome ∨
        d.yelpBizUsername.isSome ≠ d.yelpBizPassword.isSome) →
      ∃ e, resolveBizCredentials d = .error e) ∧
    (∀ u p u' p', d = ⟨some u, some p, some u', some p'⟩ →
      resolveBizCredentials d = .error .ambiguousPairs) ∧
    (d = ⟨none, none, none, none⟩ → resolveBizCredentials d = .ok none) ∧
    (∀ u p, d = ⟨some u, some p, none, none⟩ →
      resolveBizCredentials d = .ok (some ⟨u, p, .businessVars⟩)) ∧
    (∀ u p, d = ⟨none, none, some u, some p⟩ →
      resolveBizCredentials d = .ok (some ⟨u, p, .bizVars⟩)) := by
  refine ⟨?_, ?_, ?_, ?_, ?_⟩
  · intro h
    rcases d with ⟨bu, bp, zu, zp⟩
    cases bu <;> cases bp <;> cases zu <;> cases zp <;>
      first
        | (exact ⟨_, rfl⟩)
        | (exfalso; simp at h)
  · intro u p u' p' hd
    subst hd
    rfl
  · intro hd
    subst hd
    rfl
  · intro u p hd
    subst hd
    rfl
  · intro u p hd
    subst hd
    rfl

/-- Witness for C10: one concrete environment per clause. -/
theorem c10_credential_resolution_witness :
    (∃ e, resolveBizCredentials ⟨some "user", none, none, none⟩ = .error e) ∧
    resolveBizCredentials ⟨some "user", some "pw", some "user2", some "pw2"⟩ =
      .error .ambiguousPairs ∧
    resolveBizCredentials ⟨none, none, none, none⟩ = .ok none ∧
    resolveBizCredentials ⟨some "user", some "pw", none, none⟩ =
      .ok (some ⟨"user", "pw", .businessVars⟩) ∧
    resolveBizCredentials ⟨none, none, some "user", some "pw"⟩ =
      .ok (some ⟨"user", "pw", .bizVars⟩) := by
  refine ⟨(c10_credential_resolution _).1 (Or.inl (by simp)),
    (c10_credential_resolution _).2.1 "user" "pw" "user2" "pw2" rfl,
    (c10_credential_resolution _).2.2.1 rfl,
    (c10_credential_resolution _).2.2.2.1 "user" "pw" rfl,
    (c10_credential_resolution _).2.2.2.2 "user" "pw" rfl⟩

/-- Witness for C7: on the page where every detection query fails, the
pass coincides with the all-defaults pass and does not fail with a query
error. -/
theorem c7_detection_swallows_query_failures_witness :
    handleChallengesOrBlocks (defaultedChallengeEnv quietChallengeEnv) "navigation" =
      handleChallengesOrBlocks quietChallengeEnv "navigation" ∧
    (handleChallengesOrBlocks quietChallengeEnv "navigation").1 ≠
      .error .queryError := by
  have h := c7_detection_swallows_query_failures quietChallengeEnv "navigation"
  exact ⟨h.1, h.2.2⟩
